import Mathlib

/-!
# Verification of the CoFSM core (include/CoFSM.h)

A shallow embedding of the CoFSM finite-state-machine engine:

* `Event` mirrors `CoFSM::Event` (CoFSM.h lines 38-222): the reusable,
  type-erased payload slot.  The C++ buffer `std::byte* _data` is modelled as
  `Option (List Nat)` (`none` = `nullptr`, `some bytes` = an allocated buffer
  holding the given object representation).  A C++ payload type `T` is
  modelled by a `PayloadType`: its carrier, `sizeof`, triviality of the
  destructor, and its object representation (`encode`/`decode`, with the law
  that reading back the bytes of an object of the same type yields the
  object, which is what `std::launder(reinterpret_cast<T*>(..))` gives in
  the source).
* Exceptions (`throw std::runtime_error(...)`) are modelled by `Except
  FsmError`; the error constructors carry the identifiers interpolated into
  the corresponding C++ message.  The C `assert` on the cross-machine
  hand-over path (line 575) is modelled as a fatal error as well (debug
  build semantics).
* The machine layer (`FSM`, CoFSM.h lines 379-768) is modelled by `FSMRec`
  inside a `World` holding every machine and every state coroutine frame.
  Coroutine handles (`StateHandle`) become indices into the world's state
  map.  A state body - client code - is modelled as a function from the
  event received at its await point to the event it yields back, the
  canonical shape `ev = co_await fsm.emitAndReceive(&ev)` used by every
  example client.
-/

namespace CoFSM

/-- Errors thrown by the core (`std::runtime_error` throw sites in CoFSM.h),
one constructor per throw site, carrying the identifiers that the C++
message interpolates. -/
inductive FsmError where
  /-- `Event::assertDestruct` (line 202): attempt to reuse or destroy an
  event of the named type without calling `event.destroy` first. -/
  | eventReuse (eventName : String)
  /-- `Awaitable::await_suspend` (line 557): no transition found from the
  named state on the named event in the named machine. -/
  | noTransition (fsmName : String) (fromStateName : String) (eventName : String)
  /-- `Awaitable::await_resume` / `InitialAwaitable::await_resume`
  (lines 588, 612): an empty event was delivered to a state. -/
  | emptyEventToState (fsmName : String) (stateName : String)
  /-- `sendEvent` (line 671): the current state has not been started. -/
  | sendToUnstarted (fsmName : String) (stateName : String) (eventName : String)
  /-- `setState` (line 419): the requested state name is not registered. -/
  | setStateNotFound (fsmName : String) (stateName : String)
  /-- `addTransition` (lines 441, 444, 454, 463): a from/to state name is
  not registered in the relevant machine. -/
  | transitionStateNotFound (fsmName : String) (stateName : String)
  /-- `addState` (line 630): a state with this name already exists. -/
  | stateNameExists (fsmName : String) (stateName : String)
  /-- `addState` (line 635): attempt to add an invalid (null) state. -/
  | invalidState (fsmName : String)
  /-- `promise_type::return_void` (line 276): a state coroutine returned. -/
  | stateReturned (stateName : String)
  /-- The C `assert(to.fsm->_event.isEmpty())` on the cross-machine
  hand-over path (line 575), modelled as a fatal error (debug build). -/
  | handoverSlotNotEmpty (destFsmName : String)
  /-- `sendEvent` resuming a null `_state` handle is undefined behaviour in
  the C++ source; the model surfaces it as this error. -/
  | nullStateResumed (fsmName : String)
deriving DecidableEq, Repr

/-- Model of a C++ payload type `T` as stored in an `Event` buffer: the
carrier set, `sizeof(T)`, whether `std::is_trivially_destructible_v<T>`
holds, and the object representation written by placement `new` / read back
through `std::launder(reinterpret_cast<T*>(_data))`.  `decode_encode` states
that reading the bytes of an object as the very type that wrote them yields
that object, which is the guarantee the C++ object model gives. -/
structure PayloadType where
  carrier : Type
  size : Nat
  size_pos : 0 < size
  triviallyDestructible : Bool
  encode : carrier → List Nat
  decode : List Nat → Option carrier
  decode_encode : ∀ v : carrier, decode (encode v) = some v

/-- `CoFSM::Event` (lines 38-222).  `data = none` models `_data == nullptr`;
`data = some bytes` models an allocated buffer holding `bytes`. -/
structure Event where
  name : String
  capacity : Nat
  data : Option (List Nat)
  hasNontrivialDestructor : Bool
deriving DecidableEq, Repr

namespace Event

/-- The default-constructed event (line 39): empty name, zero capacity,
null buffer, trivial-destructor flag clear. -/
def emptyEvent : Event := { name := "", capacity := 0, data := none, hasNontrivialDestructor := false }

instance : Inhabited Event := ⟨emptyEvent⟩

/-- `Event::isEmpty` (line 186): true iff the name string is not set. -/
def isEmpty (e : Event) : Bool := e.name.isEmpty

/-- `Event::isEqual` (line 183): compares the name only. -/
def isEqual (e : Event) (other : String) : Bool := e.name == other

/-- `Event::assertDestruct` (lines 202-209): called before the data buffer
is about to be reused or released; throws iff the buffer still holds a
non-trivially-destructible object that has not been explicitly destroyed. -/
def assertDestruct (e : Event) : Except FsmError Unit :=
  if e.hasNontrivialDestructor then .error (.eventReuse e.name) else .ok ()

/-- `Event::reserve` (lines 166-176): grows the buffer when `_capacity <
size` (checking `assertDestruct`, releasing the old buffer, clearing the
name and the flag); otherwise does nothing. -/
def reserve (e : Event) (size : Nat) : Except FsmError Event :=
  if e.capacity < size then
    match e.assertDestruct with
    | .error err => .error err
    | .ok _ => .ok { name := "", capacity := size,
                     data := some (List.replicate size 0),
                     hasNontrivialDestructor := false }
  else .ok e

/-- `Event::construct<T>(name, args...)` with `T ≠ void` (lines 67-84) and
the by-value overload (lines 87-97): `assertDestruct`, reserve `sizeof(T)`
bytes, placement-new the payload into the buffer, set the name, record
whether `T` is trivially destructible. -/
def constructTyped (pt : PayloadType) (n : String) (v : pt.carrier) (e : Event) :
    Except FsmError Event :=
  match e.assertDestruct with
  | .error err => .error err
  | .ok _ =>
    match e.reserve pt.size with
    | .error err => .error err
    | .ok e1 => .ok { e1 with name := n,
                              data := some (pt.encode v),
                              hasNontrivialDestructor := !pt.triviallyDestructible }

/-- `Event::construct<void>(name)` (lines 73-76): `assertDestruct`, set the
name, clear the flag; the buffer is untouched. -/
def constructVoid (n : String) (e : Event) : Except FsmError Event :=
  match e.assertDestruct with
  | .error err => .error err
  | .ok _ => .ok { e with name := n, hasNontrivialDestructor := false }

/-- `Event::dataAs<T>` (lines 121-131): reinterprets the buffer as a `T`
with no runtime check; reading through the pointer yields a value exactly
when the buffer bytes decode as a `T` (and `nullptr` yields nothing). -/
def dataAs (pt : PayloadType) (e : Event) : Option pt.carrier :=
  e.data.bind pt.decode

/-- `Event::destroy<void>()` (lines 107-118, `T = void` or trivially
destructible `T`): `assertDestruct` (no destructor was run - check whether
one should have been), then clear the name and the flag. -/
def destroyVoid (e : Event) : Except FsmError Event :=
  match e.assertDestruct with
  | .error err => .error err
  | .ok _ => .ok { e with name := "", hasNontrivialDestructor := false }

/-- `Event::destroy<T>()` (lines 107-118).  For trivially destructible `T`
this is the `assertDestruct` path; for non-trivially-destructible `T` the
stored object's destructor runs (when `_data` is non-null and the flag is
set - no effect on the modelled buffer bytes), then the name and flag are
cleared. -/
def destroyTyped (pt : PayloadType) (e : Event) : Except FsmError Event :=
  if pt.triviallyDestructible then
    e.destroyVoid
  else
    .ok { e with name := "", hasNontrivialDestructor := false }

/-- `Event::clear` (lines 155-163): `assertDestruct`, then release the
buffer and reset every field. -/
def clear (e : Event) : Except FsmError Event :=
  match e.assertDestruct with
  | .error err => .error err
  | .ok _ => .ok emptyEvent

/-- The move constructor (lines 40-46): the target steals every field and
the source is left default-initialized.  No `assertDestruct` runs. -/
def moveCtor (source : Event) : Event × Event :=
  (source, emptyEvent)

/-- Move assignment `target = std::move(source)` for distinct objects
(lines 48-58): the target first `clear()`s itself (which `assertDestruct`s
and releases its buffer), then steals every field of the source, leaving
the source default-initialized.  Returns (new target, new source). -/
def moveAssign (target source : Event) : Except FsmError (Event × Event) :=
  match target.clear with
  | .error err => .error err
  | .ok _ => .ok (source, emptyEvent)

/-- `Event::~Event` (lines 60-64): `assertDestruct`, then the buffer is
freed.  Only the contract check is observable. -/
def destructorRun (e : Event) : Except FsmError Unit :=
  e.assertDestruct

end Event

/-- Is an `Except` computation a success? -/
def exceptOk {α : Type} (x : Except FsmError α) : Bool :=
  match x with
  | .ok _ => true
  | .error _ => false

end CoFSM

open CoFSM

/-- A concrete non-trivially-destructible payload type (e.g. a heap-owning
box of a number) used as a test value for the theorems below. -/
@[reducible] def natBoxPT : PayloadType where
  carrier := Nat
  size := 8
  size_pos := by decide
  triviallyDestructible := false
  encode := fun v => [v]
  decode := fun bytes => bytes.head?
  decode_encode := fun v => rfl

/-- A concrete trivially-destructible payload type (a plain number). -/
@[reducible] def natPT : PayloadType where
  carrier := Nat
  size := 4
  size_pos := by decide
  triviallyDestructible := true
  encode := fun v => [v]
  decode := fun bytes => bytes.head?
  decode_encode := fun v => rfl

namespace CoFSM

/-- One public `Event` operation, for stating the name/liveness invariant
over arbitrary operation sequences.  `moveIn` move-assigns into the event
from a source event built by its own operation sequence (starting from a
default-constructed event); `moveOut` makes the event the source of a move
(constructor or assignment), after which it is default-initialized. -/
inductive EOp : Type 1 where
  | constructT (pt : PayloadType) (n : String) (v : pt.carrier)
  | constructV (n : String)
  | destroyT (pt : PayloadType)
  | destroyV
  | clear
  | reserve (size : Nat)
  | moveOut
  | moveIn (src : List EOp)

mutual

/-- Ghost payload-liveness bookkeeping for `EOp` sequences: content is
considered live from a successful `construct` until the next operation that
tears it down or releases the buffer (`destroy`, `clear`, a
buffer-reallocating `reserve`, or being moved from); a move transfers the
source's liveness to the target.  Runs one operation. -/
def runEOp (e : Event) (live : Bool) : EOp → Except FsmError (Event × Bool)
  | .constructT pt n v =>
    match e.constructTyped pt n v with
    | .error err => .error err
    | .ok e1 => .ok (e1, true)
  | .constructV n =>
    match e.constructVoid n with
    | .error err => .error err
    | .ok e1 => .ok (e1, true)
  | .destroyT pt =>
    match e.destroyTyped pt with
    | .error err => .error err
    | .ok e1 => .ok (e1, false)
  | .destroyV =>
    match e.destroyVoid with
    | .error err => .error err
    | .ok e1 => .ok (e1, false)
  | .clear =>
    match e.clear with
    | .error err => .error err
    | .ok e1 => .ok (e1, false)
  | .reserve sz =>
    match e.reserve sz with
    | .error err => .error err
    | .ok e1 => .ok (e1, if e.capacity < sz then false else live)
  | .moveOut => .ok ((Event.moveCtor e).2, false)
  | .moveIn src =>
    match runEOps Event.emptyEvent false src with
    | .error err => .error err
    | .ok (srcE, srcLive) =>
      match Event.moveAssign e srcE with
      | .error err => .error err
      | .ok (tgt, _) => .ok (tgt, srcLive)

/-- Runs a sequence of `Event` operations from a given event and ghost
liveness bit, stopping at the first contract error. -/
def runEOps (e : Event) (live : Bool) : List EOp → Except FsmError (Event × Bool)
  | [] => .ok (e, live)
  | op :: ops =>
    match runEOp e live op with
    | .error err => .error err
    | .ok (e1, l1) => runEOps e1 l1 ops
end

mutual

/-- An operation whose `construct` calls all use non-empty names
(recursively, also inside the histories of move sources). -/
inductive GoodOp : EOp → Prop where
  | constructT : n ≠ "" → GoodOp (.constructT pt n v)
  | constructV : n ≠ "" → GoodOp (.constructV n)
  | destroyT : GoodOp (.destroyT pt)
  | destroyV : GoodOp .destroyV
  | clear : GoodOp .clear
  | reserve : GoodOp (.reserve sz)
  | moveOut : GoodOp .moveOut
  | moveIn : GoodOps src → GoodOp (.moveIn src)

inductive GoodOps : List EOp → Prop where
  | nil : GoodOps []
  | cons : GoodOp op → GoodOps ops → GoodOps (op :: ops)
end

/-- The data-model invariant of the spec: an event's `name` is empty iff no
payload (content) is considered live in its buffer. -/
def EventLiveInv (e : Event) (live : Bool) : Prop := e.name = "" ↔ live = false

end CoFSM

namespace CoFSM

/-- A state handle (`State::handle_type`, the address of a coroutine
frame), modelled as an index into the world's state map. -/
abbrev StateHandle := Nat

/-- The observable content of one state coroutine frame: the promise's
`name` and `bIsStarted` flag (CoFSM.h lines 279-283), the machine whose
`emitAndReceive`/`getEvent` awaitables the body awaits (each example
client's body is written against exactly one machine), and the body
itself, modelled as the function from the event received at the await
point to the event the body constructs and yields back. -/
structure StateObj where
  name : String
  bIsStarted : Bool
  owner : Nat
  body : Event → Event

instance : Inhabited StateObj := ⟨⟨"", false, 0, id⟩⟩

/-- `FSM::TransitionTarget` (lines 753-757): go to `state`, which belongs
to machine `fsm` (`addTransition` replaces the `nullptr` default by the
owning machine before insertion, line 431). -/
structure TransitionTarget where
  state : StateHandle
  fsm : Nat
deriving DecidableEq, Repr

/-- The transition table `_mapTransitionTable` (line 761): keys are
`(from-state handle, event name)`; the from-handle is nullable because the
by-name `removeTransition`/`hasTransition`/`targetState` pass a failed
name lookup (`nullptr`) straight into the key. -/
abbrev TransitionTable := List ((Option StateHandle × String) × TransitionTarget)

/-- `std::unordered_map::find`. -/
def tableFind (t : TransitionTable) (k : Option StateHandle × String) :
    Option TransitionTarget :=
  (t.find? (fun kv => kv.1 == k)).map (fun kv => kv.2)

/-- `std::unordered_map::insert_or_assign` (line 432): the Bool is true on
a fresh insert and false when an existing mapping was replaced. -/
def tableInsertOrAssign (t : TransitionTable) (k : Option StateHandle × String)
    (v : TransitionTarget) : TransitionTable × Bool :=
  if (t.find? (fun kv => kv.1 == k)).isSome then
    (t.map (fun kv => if kv.1 == k then (k, v) else kv), false)
  else
    (t ++ [(k, v)], true)

/-- `std::unordered_map::erase` (line 479): the Bool is true iff a key was
present and removed. -/
def tableErase (t : TransitionTable) (k : Option StateHandle × String) :
    TransitionTable × Bool :=
  (t.filter (fun kv => !(kv.1 == k)), (t.find? (fun kv => kv.1 == k)).isSome)

/-- `std::unordered_map::contains` (line 500). -/
def tableContains (t : TransitionTable) (k : Option StateHandle × String) : Bool :=
  (t.find? (fun kv => kv.1 == k)).isSome

/-- One machine (`class FSM`, lines 379-768): name, the in-flight event
`_event`, the nullable current-state handle `_state`, the transition
table, the handles of the owned states (`_vecStates`), and `_bIsActive`. -/
structure FSMRec where
  name : String
  event : Event
  state : Option StateHandle
  table : TransitionTable
  stateIds : List StateHandle
  bIsActive : Bool

instance : Inhabited FSMRec :=
  ⟨⟨"", Event.emptyEvent, none, [], [], false⟩⟩

/-- All machines and all state coroutine frames.  Machine identities
(`FSM*`) and state handles are indices into total maps, so that pointer
comparisons need no bounds bookkeeping. -/
structure World where
  fsms : Nat → FSMRec
  states : Nat → StateObj

/-- Replace machine `i`. -/
def World.updFsm (w : World) (i : Nat) (f : FSMRec) : World :=
  { w with fsms := fun j => if j = i then f else w.fsms j }

/-- Mark state `s` as started (`State::promise_type::InitialAwaitable::
await_resume`, line 258). -/
def World.markStarted (w : World) (s : StateHandle) : World :=
  { w with states := fun t => if t = s then
      { w.states t with bIsStarted := true } else w.states t }

/-- `FSM::FSM(std::string)` (lines 386-390) for a non-empty name (the
hex-address fallback used for an empty name is address-dependent and kept
abstract): no current state, empty in-flight event, empty table, no owned
states, inactive. -/
def FSMRec.init (fsmName : String) : FSMRec :=
  { name := fsmName, event := Event.emptyEvent, state := none,
    table := [], stateIds := [], bIsActive := false }

/-- `FSM::currentState` (lines 405-406): the name in the current state
handle's promise, or the shared empty string when `_state` is null. -/
def World.currentStateName (w : World) (f : FSMRec) : String :=
  match f.state with
  | none => ""
  | some h => (w.states h).name

/-- `FSM::findHandle` (lines 725-732): the handle of the first registered
state carrying the given name, or null. -/
def World.findHandle (w : World) (f : FSMRec) (stateName : String) :
    Option StateHandle :=
  f.stateIds.find? (fun h => (w.states h).name == stateName)

/-- `FSM::hasState` (lines 700-707). -/
def World.hasState (w : World) (f : FSMRec) (stateName : String) : Bool :=
  (w.findHandle f stateName).isSome

/-- `FSM::setState(const State&)` (lines 409-413). -/
def FSMRec.setStateHandle (f : FSMRec) (h : StateHandle) : FSMRec :=
  { f with state := some h }

/-- `FSM::setState(std::string_view)` (lines 415-421): resolves the name
against this machine's registered states; an unregistered name is a fatal
error. -/
def World.setStateByName (w : World) (i : Nat) (stateName : String) :
    Except FsmError World :=
  let f := w.fsms i
  match w.findHandle f stateName with
  | some h => .ok (w.updFsm i { f with state := some h })
  | none => .error (.setStateNotFound f.name stateName)

/-- `FSM::addTransition(StateHandle, SV, StateHandle, FSM*)` (lines
429-433): `none` target machine (`nullptr`) means this machine. -/
def World.addTransitionHH (w : World) (i : Nat) (fromH : StateHandle)
    (onEvent : String) (toH : StateHandle) (targetFSM : Option Nat) :
    World × Bool :=
  let tgt := targetFSM.getD i
  let f := w.fsms i
  let res := tableInsertOrAssign f.table (some fromH, onEvent) ⟨toH, tgt⟩
  (w.updFsm i { f with table := res.1 }, res.2)

/-- `FSM::addTransition(SV, SV, SV, FSM*)` (lines 436-447): resolves the
from-name in this machine, then the to-name in the target machine; either
name missing is a fatal error. -/
def World.addTransitionNN (w : World) (i : Nat)
    (fromState onEvent toState : String) (targetFSM : Option Nat) :
    Except FsmError (World × Bool) :=
  let tgt := targetFSM.getD i
  let f := w.fsms i
  match w.findHandle f fromState with
  | none => .error (.transitionStateNotFound f.name fromState)
  | some fromH =>
    match w.findHandle (w.fsms tgt) toState with
    | none => .error (.transitionStateNotFound f.name toState)
    | some toH => .ok (w.addTransitionHH i fromH onEvent toH targetFSM)

/-- `FSM::addTransition(StateHandle, SV, SV, FSM*)` (lines 449-456). -/
def World.addTransitionHN (w : World) (i : Nat) (fromH : StateHandle)
    (onEvent toState : String) (targetFSM : Option Nat) :
    Except FsmError (World × Bool) :=
  let tgt := targetFSM.getD i
  match w.findHandle (w.fsms tgt) toState with
  | none => .error (.transitionStateNotFound (w.fsms i).name toState)
  | some toH => .ok (w.addTransitionHH i fromH onEvent toH targetFSM)

/-- `FSM::addTransition(SV, SV, StateHandle, FSM*)` (lines 458-465). -/
def World.addTransitionNH (w : World) (i : Nat) (fromState onEvent : String)
    (toH : StateHandle) (targetFSM : Option Nat) :
    Except FsmError (World × Bool) :=
  let f := w.fsms i
  match w.findHandle f fromState with
  | none => .error (.transitionStateNotFound f.name fromState)
  | some fromH => .ok (w.addTransitionHH i fromH onEvent toH targetFSM)

/-- `FSM::removeTransition(StateHandle, SV)` (lines 477-481); the handle
may be the null handle. -/
def World.removeTransitionH (w : World) (i : Nat)
    (fromH : Option StateHandle) (onEvent : String) : World × Bool :=
  let f := w.fsms i
  let res := tableErase f.table (fromH, onEvent)
  (w.updFsm i { f with table := res.1 }, res.2)

/-- `FSM::removeTransition(SV, SV)` (lines 483-487): the result of the
name lookup - null when the name is unregistered - is used directly as the
erase key; an unregistered name is not an error, the erase just misses. -/
def World.removeTransitionN (w : World) (i : Nat)
    (fromState onEvent : String) : World × Bool :=
  w.removeTransitionH i (w.findHandle (w.fsms i) fromState) onEvent

/-- `FSM::hasTransition(StateHandle, SV)` (lines 498-501). -/
def World.hasTransitionH (w : World) (i : Nat)
    (fromH : Option StateHandle) (onEvent : String) : Bool :=
  tableContains (w.fsms i).table (fromH, onEvent)

/-- `FSM::hasTransition(SV, SV)` (lines 503-506): an unregistered from
name becomes the null key; no error. -/
def World.hasTransitionN (w : World) (i : Nat)
    (fromState onEvent : String) : Bool :=
  w.hasTransitionH i (w.findHandle (w.fsms i) fromState) onEvent

/-- `FSM::targetState(StateHandle, SV)` (lines 521-530): the name of the
target state, or the shared empty string when there is no transition. -/
def World.targetStateH (w : World) (i : Nat)
    (fromH : Option StateHandle) (onEvent : String) : String :=
  match tableFind (w.fsms i).table (fromH, onEvent) with
  | none => ""
  | some dest => (w.states dest.state).name

/-- `FSM::targetState(SV, SV)` (lines 532-535): an unregistered from name
becomes the null key; no error. -/
def World.targetStateN (w : World) (i : Nat)
    (fromState onEvent : String) : String :=
  w.targetStateH i (w.findHandle (w.fsms i) fromState) onEvent

end CoFSM

namespace CoFSM

/-- `FSM::Awaitable::await_suspend(fromState)` (lines 541-583): the
routing step run after state `fromState` (owned by machine `selfId`) has
yielded its next event into the machine's `_event` slot.  Returns the
updated world and the coroutine to resume next; `none` models
`std::noop_coroutine()` (the chain ends and control returns to the `send`
caller).  On an empty event the machine is simply deactivated (lines
546-549).  A transition-table miss is the fatal `noTransition` error
(lines 552-559); on a hit the machine sets `_bIsActive` and either updates
its own `_state` (same-machine target, lines 563-569) or sets the
destination machine's `_state` and moves the event into the destination's
in-flight slot (lines 570-582).  The C `assert` that the destination slot
is empty (line 575) is modelled as the fatal `handoverSlotNotEmpty` error
(debug-build semantics); the slot move-assignment itself can fail like any
event move. -/
def World.awaitSuspend (w : World) (selfId : Nat) (fromState : StateHandle) :
    Except FsmError (World × Option StateHandle) :=
  let self := w.fsms selfId
  if self.event.isEmpty then
    .ok (w.updFsm selfId { self with bIsActive := false }, none)
  else
    let self1 := { self with bIsActive := true }
    match tableFind self1.table (some fromState, self1.event.name) with
    | none =>
      .error (.noTransition self1.name (w.states fromState).name self1.event.name)
    | some dest =>
      if dest.fsm = selfId then
        .ok (w.updFsm selfId { self1 with state := some dest.state }, some dest.state)
      else
        let destF := w.fsms dest.fsm
        if destF.event.isEmpty then
          match Event.moveAssign destF.event self1.event with
          | .error err => .error err
          | .ok res =>
            .ok ((w.updFsm selfId { self1 with event := res.2 }).updFsm dest.fsm
                   { destF with state := some dest.state, event := res.1 },
                 some dest.state)
        else
          .error (.handoverSlotNotEmpty destF.name)

/-- The outcome of driving a dispatch chain (the cascade of coroutine
resumptions triggered by one `sendEvent`). -/
inductive ChainResult where
  /-- A state of machine `machineId` yielded an empty event: every
  coroutine is suspended again and the originating `send` call returns. -/
  | returned (w : World) (machineId : Nat)
  /-- The chain routed into a state still waiting at its initial
  suspension: the state starts, runs to its first `getEvent` await and
  suspends there without consuming the in-flight event; the `send` call
  returns with the chain silently dropped. -/
  | startedOnly (w : World)
  /-- Fuel ran out while the chain was still dispatching. -/
  | fuelOut

/-- Resume state coroutine `s` and drive the chain.  For a started state,
its pending `await_resume` (lines 585-590 / 608-614) moves the owner
machine's in-flight event out - failing fatally if it is empty - leaving
the slot default-initialized; the body runs and its yielded event lands in
the slot through `emitAndReceive` (lines 597-601; the slot is empty at
that point, so this move-assignment cannot fail); then `await_suspend`
routes it, continuing the chain at the returned coroutine until
`noop_coroutine` ends it.  A never-started state (still at its initial
suspension, lines 253-259) instead marks itself started, runs to its first
`co_await getEvent()` (line 607) and suspends, returning control to the
sender without consuming the event. -/
def World.resumeChain (w : World) (s : StateHandle) :
    Nat → Except FsmError ChainResult
  | 0 => .ok .fuelOut
  | fuel + 1 =>
    let st := w.states s
    if st.bIsStarted then
      let owner := st.owner
      let f := w.fsms owner
      if f.event.isEmpty then
        .error (.emptyEventToState f.name (w.currentStateName f))
      else
        let yielded := st.body f.event
        let w2 := w.updFsm owner { f with event := yielded }
        match w2.awaitSuspend owner s with
        | .error err => .error err
        | .ok (w3, none) => .ok (.returned w3 owner)
        | .ok (w3, some next) => w3.resumeChain next fuel
    else
      .ok (.startedOnly (w.markStarted s))

/-- `FSM::sendEvent` (lines 668-677): fails fatally when the current state
has not been started; otherwise move-assigns the caller's event into
`_event` (running `assertDestruct` on the old slot contents) and resumes
the current state, driving the chain with the given fuel.  Resuming a null
`_state` handle is undefined behaviour in the C++ source, surfaced here as
`nullStateResumed`. -/
def World.sendEvent (w : World) (i : Nat) (e : Event) (fuel : Nat) :
    Except FsmError ChainResult :=
  let f := w.fsms i
  match f.state with
  | none => .error (.nullStateResumed f.name)
  | some s =>
    if (w.states s).bIsStarted then
      match Event.moveAssign f.event e with
      | .error err => .error err
      | .ok res => (w.updFsm i { f with event := res.1 }).resumeChain s fuel
    else
      .error (.sendToUnstarted f.name (w.states s).name e.name)

end CoFSM

/-- The event produced by constructing a non-trivially-destructible payload
under the empty name (`construct<T>("", v)`, a call nothing in the source
rejects): `isEmpty` is true while the buffer holds a live payload - the
destructor-tracking flag itself records the liveness. -/
def pathologicalEvent : Event :=
  { name := "", capacity := 8, data := some [7], hasNontrivialDestructor := true }

/-- A world holding a single freshly-constructed machine `M` with no
registered states, used as a concrete test input. -/
def sampleWorld : World :=
  { fsms := fun _ => FSMRec.init "M", states := fun _ => default }

/-- A two-machine world: machine 0 (`R`, state handle 0 named `idle`,
currently holding event `Handover` with payload byte 2) routes
`(idle, Handover)` to state handle 1 (named `idleG`) of machine 1 (`G`),
whose in-flight slot is empty. -/
def handoverWorld : World :=
  { fsms := fun i =>
      if i = 0 then
        { name := "R",
          event := { name := "Handover", capacity := 4, data := some [2],
                     hasNontrivialDestructor := false },
          state := some 0,
          table := [((some 0, "Handover"), ⟨1, 1⟩)],
          stateIds := [0], bIsActive := false }
      else
        { name := "G", event := Event.emptyEvent, state := some 1,
          table := [], stateIds := [1], bIsActive := false },
    states := fun s =>
      if s = 0 then ⟨"idle", true, 0, id⟩ else ⟨"idleG", true, 1, id⟩ }

/-- Like `handoverWorld`, but machine `G`'s in-flight slot already holds an
event named `Busy`. -/
def handoverBusyWorld : World :=
  { fsms := fun i =>
      if i = 0 then
        { name := "R",
          event := { name := "Handover", capacity := 4, data := some [2],
                     hasNontrivialDestructor := false },
          state := some 0,
          table := [((some 0, "Handover"), ⟨1, 1⟩)],
          stateIds := [0], bIsActive := false }
      else
        { name := "G",
          event := { name := "Busy", capacity := 0, data := none,
                     hasNontrivialDestructor := false },
          state := some 1, table := [], stateIds := [1], bIsActive := false },
    states := fun s =>
      if s = 0 then ⟨"idle", true, 0, id⟩ else ⟨"idleG", true, 1, id⟩ }

/-- An event named `go` with no payload. -/
def goEvent : Event :=
  { name := "go", capacity := 0, data := none, hasNontrivialDestructor := false }

/-- One machine `M`, active, whose only state `A` (started) holds in-flight
event `go` and whose body yields the empty event. -/
def emptyYieldWorld : World :=
  { fsms := fun _ =>
      { name := "M", event := goEvent, state := some 0,
        table := [], stateIds := [0], bIsActive := true },
    states := fun _ => ⟨"A", true, 0, fun _ => Event.emptyEvent⟩ }

/-- An event named `x` with no payload. -/
def xEvent : Event :=
  { name := "x", capacity := 0, data := none, hasNontrivialDestructor := false }

/-- One machine `M` with started state `A` (handle 0) whose body always
yields event `x`, routed by the table to the never-started state `B`
(handle 1) of the same machine. -/
def unstartedTargetWorld : World :=
  { fsms := fun _ =>
      { name := "M", event := Event.emptyEvent, state := some 0,
        table := [((some 0, "x"), ⟨1, 0⟩)], stateIds := [0, 1], bIsActive := false },
    states := fun s =>
      if s = 0 then ⟨"A", true, 0, fun _ => xEvent⟩ else ⟨"B", false, 0, id⟩ }

/-- The constructor of a chain outcome, as a tag string. -/
def chainResultTag : Except FsmError ChainResult → String
  | .ok (.returned _ _) => "returned"
  | .ok (.startedOnly _) => "startedOnly"
  | .ok .fuelOut => "fuelOut"
  | .error _ => "error"

/-- The final world of a chain that handed control back to the sender. -/
def chainResultWorld : Except FsmError ChainResult → Option World
  | .ok (.returned w1 _) => some w1
  | .ok (.startedOnly w1) => some w1
  | _ => none

/-- C1: an Event whose buffer holds a live non-trivially-destructible
payload that has not been explicitly destroyed (`_hasNontrivialDestructor`
set) makes every buffer-reusing or buffer-releasing operation fail with the
`eventReuse` contract error: typed and void `construct`, `clear`, a
capacity-growing `reserve`, being the target of a move assignment, the
no-argument `destroy`, and the destructor.  When the flag is clear (the
stored payload is trivially destructible, or the event holds no live
payload at all) every one of these operations succeeds. -/
theorem c1_event_reuse_guard (e : Event) (pt : PayloadType) (n : String)
    (v : pt.carrier) (sz : Nat) (src : Event) :
    (e.hasNontrivialDestructor = true →
      e.constructTyped pt n v = .error (.eventReuse e.name) ∧
      e.constructVoid n = .error (.eventReuse e.name) ∧
      e.clear = .error (.eventReuse e.name) ∧
      (e.capacity < sz → e.reserve sz = .error (.eventReuse e.name)) ∧
      e.moveAssign src = .error (.eventReuse e.name) ∧
      e.destroyVoid = .error (.eventReuse e.name) ∧
      e.destructorRun = .error (.eventReuse e.name)) ∧
    (e.hasNontrivialDestructor = false →
      exceptOk (e.constructTyped pt n v) = true ∧
      exceptOk (e.constructVoid n) = true ∧
      exceptOk e.clear = true ∧
      exceptOk (e.reserve sz) = true ∧
      exceptOk (e.moveAssign src) = true ∧
      exceptOk e.destroyVoid = true ∧
      exceptOk e.destructorRun = true) := by
  constructor
  · intro hFlag
    simp [Event.constructTyped, Event.constructVoid, Event.clear, Event.reserve,
          Event.moveAssign, Event.destroyVoid, Event.destructorRun,
          Event.assertDestruct, hFlag]
  · intro hFlag
    simp only [Event.constructTyped, Event.constructVoid, Event.clear, Event.reserve,
               Event.moveAssign, Event.destroyVoid, Event.destructorRun,
               Event.assertDestruct, hFlag]
    refine ⟨?_, rfl, rfl, ?_, rfl, rfl, rfl⟩
    · by_cases hc : e.capacity < pt.size <;> simp [hc, exceptOk]
    · by_cases hc : e.capacity < sz <;> simp [hc, exceptOk]

/-- Witness for `c1_event_reuse_guard`: a concrete event holding an
undestroyed non-trivially-destructible payload rejects `clear`, and a
concrete flag-clear event accepts it. -/
theorem c1_event_reuse_guard_witness :
    (Event.mk "Boxed" 8 (some [7]) true).clear = .error (.eventReuse "Boxed") ∧
    exceptOk (Event.mk "Plain" 4 (some [3]) false).clear = true :=
  ⟨((c1_event_reuse_guard (Event.mk "Boxed" 8 (some [7]) true) natBoxPT "x" 0 0
      Event.emptyEvent).1 rfl).2.2.1,
   ((c1_event_reuse_guard (Event.mk "Plain" 4 (some [3]) false) natBoxPT "x" 0 0
      Event.emptyEvent).2 rfl).2.2.1⟩

/-- C6: round-trip through the typed payload interface.  Starting from an
event that holds no live payload (empty name, destructor-tracking flag
clear), `construct<T>(n, v)` succeeds; reading the payload back as `T`
yields `v`; the event's name is `n`; and a subsequent `destroy<T>()`
succeeds and leaves the event empty. -/
theorem c6_construct_read_destroy_roundtrip (pt : PayloadType) (n : String)
    (v : pt.carrier) (e : Event) (_hname : e.name = "")
    (hflag : e.hasNontrivialDestructor = false) (_hn : n ≠ "") :
    ∃ e1 e2 : Event,
      e.constructTyped pt n v = .ok e1 ∧
      e1.dataAs pt = some v ∧
      e1.name = n ∧
      e1.destroyTyped pt = .ok e2 ∧
      e2.isEmpty = true := by
  by_cases hc : e.capacity < pt.size
  · refine ⟨{ name := n, capacity := pt.size, data := some (pt.encode v),
              hasNontrivialDestructor := !pt.triviallyDestructible },
            { name := "", capacity := pt.size, data := some (pt.encode v),
              hasNontrivialDestructor := false }, ?_, ?_, rfl, ?_, ?_⟩
    · simp [Event.constructTyped, Event.reserve, Event.assertDestruct, hflag, hc]
    · simp [Event.dataAs, pt.decode_encode]
    · by_cases htriv : pt.triviallyDestructible <;>
        simp [Event.destroyTyped, Event.destroyVoid, Event.assertDestruct, htriv]
    · rfl
  · refine ⟨{ name := n, capacity := e.capacity, data := some (pt.encode v),
              hasNontrivialDestructor := !pt.triviallyDestructible },
            { name := "", capacity := e.capacity, data := some (pt.encode v),
              hasNontrivialDestructor := false }, ?_, ?_, rfl, ?_, ?_⟩
    · simp [Event.constructTyped, Event.reserve, Event.assertDestruct, hflag, hc]
    · simp [Event.dataAs, pt.decode_encode]
    · by_cases htriv : pt.triviallyDestructible <;>
        simp [Event.destroyTyped, Event.destroyVoid, Event.assertDestruct, htriv]
    · rfl

/-- Witness for `c6_construct_read_destroy_roundtrip` at the concrete
payload `37 : Nat` boxed under the name `Data`. -/
theorem c6_construct_read_destroy_roundtrip_witness :
    ∃ e1 e2 : Event,
      Event.emptyEvent.constructTyped natBoxPT "Data" 37 = .ok e1 ∧
      e1.dataAs natBoxPT = some 37 ∧
      e1.name = "Data" ∧
      e1.destroyTyped natBoxPT = .ok e2 ∧
      e2.isEmpty = true :=
  c6_construct_read_destroy_roundtrip natBoxPT "Data" 37 Event.emptyEvent
    rfl rfl (by decide)


namespace CoFSM

theorem constructTyped_ok_name {pt : PayloadType} {n : String} {v : pt.carrier}
    {e e1 : Event} (h : e.constructTyped pt n v = .ok e1) : e1.name = n := by
  unfold Event.constructTyped at h
  split at h
  · cases h
  · split at h
    · cases h
    · cases h
      rfl

theorem constructVoid_ok_name {n : String} {e e1 : Event}
    (h : e.constructVoid n = .ok e1) : e1.name = n := by
  unfold Event.constructVoid at h
  split at h
  · cases h
  · cases h
    rfl

theorem destroyVoid_ok_name {e e1 : Event} (h : e.destroyVoid = .ok e1) :
    e1.name = "" := by
  unfold Event.destroyVoid at h
  split at h
  · cases h
  · cases h
    rfl

theorem destroyTyped_ok_name {pt : PayloadType} {e e1 : Event}
    (h : e.destroyTyped pt = .ok e1) : e1.name = "" := by
  unfold Event.destroyTyped at h
  split at h
  · exact destroyVoid_ok_name h
  · cases h
    rfl

theorem clear_ok_eq {e e1 : Event} (h : e.clear = .ok e1) :
    e1 = Event.emptyEvent := by
  unfold Event.clear at h
  split at h
  · cases h
  · cases h
    rfl

theorem reserve_ok_cases {e e1 : Event} {sz : Nat} (h : e.reserve sz = .ok e1) :
    (e.capacity < sz ∧ e1.name = "") ∨ (¬ e.capacity < sz ∧ e1 = e) := by
  unfold Event.reserve at h
  split at h
  · split at h
    · cases h
    · cases h
      exact Or.inl ⟨by assumption, rfl⟩
  · cases h
    exact Or.inr ⟨by assumption, rfl⟩

theorem moveAssign_ok_eq {t s : Event} {p : Event × Event}
    (h : Event.moveAssign t s = .ok p) : p = (s, Event.emptyEvent) := by
  unfold Event.moveAssign at h
  split at h
  · cases h
  · cases h
    rfl

/-- Every operation sequence with non-empty construct names preserves the
name/liveness invariant (strong induction on the size of the sequence, to
handle the nested histories of move sources). -/
theorem runEOps_inv_aux :
    ∀ (n : Nat) (ops : List EOp) (e : Event) (live : Bool) (r : Event × Bool),
      sizeOf ops ≤ n → EventLiveInv e live → GoodOps ops →
      runEOps e live ops = .ok r → EventLiveInv r.1 r.2 := by
  intro n
  induction n with
  | zero =>
    intro ops e live r hsz _ _ _
    exact absurd hsz (by cases ops <;> simp)
  | succ n ih =>
    intro ops e live r hsz hinv hgood hrun
    cases hgood with
    | nil =>
      simp only [runEOps] at hrun
      cases hrun
      exact hinv
    | @cons op ops' hop hops =>
      simp only [runEOps] at hrun
      cases hstep : runEOp e live op with
      | error err =>
        rw [hstep] at hrun
        cases hrun
      | ok s1 =>
        rw [hstep] at hrun
        obtain ⟨e1, l1⟩ := s1
        have hsz' : sizeOf ops' ≤ n := by
          simp only [List.cons.sizeOf_spec] at hsz
          have : 0 < sizeOf op := by cases op <;> simp
          omega
        have hinv1 : EventLiveInv e1 l1 := by
          cases hop with
          | @constructT nm pt v hnm =>
            simp only [runEOp] at hstep
            split at hstep
            · cases hstep
            · cases hstep
              have hn := constructTyped_ok_name (by assumption)
              simp only [EventLiveInv, hn]
              simp [hnm]
          | @constructV nm hnm =>
            simp only [runEOp] at hstep
            split at hstep
            · cases hstep
            · cases hstep
              have hn := constructVoid_ok_name (by assumption)
              simp only [EventLiveInv, hn]
              simp [hnm]
          | @destroyT pt =>
            simp only [runEOp] at hstep
            split at hstep
            · cases hstep
            · cases hstep
              have hn := destroyTyped_ok_name (by assumption)
              simp [EventLiveInv, hn]
          | destroyV =>
            simp only [runEOp] at hstep
            split at hstep
            · cases hstep
            · cases hstep
              have hn := destroyVoid_ok_name (by assumption)
              simp [EventLiveInv, hn]
          | clear =>
            simp only [runEOp] at hstep
            split at hstep
            · cases hstep
            · cases hstep
              have hn := clear_ok_eq (by assumption)
              simp [EventLiveInv, hn, Event.emptyEvent]
          | @reserve sz =>
            simp only [runEOp] at hstep
            split at hstep
            · cases hstep
            · cases hstep
              rcases reserve_ok_cases (by assumption) with ⟨hlt, hn⟩ | ⟨hlt, heq⟩
              · simp [EventLiveInv, hn, hlt]
              · subst heq
                simp only [if_neg hlt]
                exact hinv
          | moveOut =>
            simp only [runEOp] at hstep
            cases hstep
            simp [EventLiveInv, Event.moveCtor, Event.emptyEvent]
          | @moveIn src hsrc =>
            simp only [runEOp] at hstep
            cases hsrcRun : runEOps Event.emptyEvent false src with
            | error err =>
              rw [hsrcRun] at hstep
              cases hstep
            | ok srcPair =>
              obtain ⟨srcE, srcLive⟩ := srcPair
              rw [hsrcRun] at hstep
              dsimp only at hstep
              cases hMove : Event.moveAssign e srcE with
              | error err =>
                rw [hMove] at hstep
                cases hstep
              | ok tgtPair =>
                obtain ⟨tgt, rest⟩ := tgtPair
                rw [hMove] at hstep
                cases hstep
                have hSrcSz : sizeOf src ≤ n := by
                  simp only [List.cons.sizeOf_spec, EOp.moveIn.sizeOf_spec] at hsz
                  omega
                have hEmptyInv : EventLiveInv Event.emptyEvent false := by
                  simp [EventLiveInv, Event.emptyEvent]
                have hSrcInv := ih src Event.emptyEvent false _ hSrcSz hEmptyInv hsrc hsrcRun
                have hTgt := moveAssign_ok_eq hMove
                rw [Prod.mk.injEq] at hTgt
                rw [hTgt.1]
                exact hSrcInv
        exact ih ops' e1 l1 r hsz' hinv1 hops hrun

end CoFSM

open CoFSM

/-- C7 (amended): for every event and every sequence of Event operations
(construct with or without a payload type, destroy, clear, reserve, move)
in which every `construct` call is given a non-empty name, the invariant
holds that the event's name is empty iff no payload is considered live in
its buffer.  (The amendment - non-empty construct names - is forced by
`c7_name_iff_live_counterexample`: constructing a payload under the empty
name makes the event report empty while a live non-trivially-destructible
payload sits in the buffer.) -/
theorem c7_name_iff_live (ops : List EOp) (e : Event) (live : Bool)
    (r : Event × Bool) (hinv : EventLiveInv e live) (hgood : GoodOps ops)
    (hrun : runEOps e live ops = .ok r) : EventLiveInv r.1 r.2 :=
  runEOps_inv_aux (sizeOf ops) ops e live r le_rfl hinv hgood hrun

/-- Witness for `c7_name_iff_live`: a concrete sequence - construct a boxed
payload named `A`, destroy it, then move-assign from an event constructed
with name `B` - ends with name `B` and live content, satisfying the
invariant. -/
theorem c7_name_iff_live_witness :
    EventLiveInv
      { name := "B", capacity := 0, data := none, hasNontrivialDestructor := false }
      true :=
  c7_name_iff_live
    [EOp.constructT natBoxPT "A" 5, EOp.destroyT natBoxPT,
     EOp.moveIn [EOp.constructV "B"]]
    Event.emptyEvent false _
    (by simp [EventLiveInv, Event.emptyEvent])
    (GoodOps.cons (GoodOp.constructT (by decide))
      (GoodOps.cons GoodOp.destroyT
        (GoodOps.cons
          (GoodOp.moveIn (GoodOps.cons (GoodOp.constructV (by decide)) GoodOps.nil))
          GoodOps.nil)))
    rfl


/-- Counterexample to C7 as stated: the single-operation sequence
`construct<natBox>("", 7)` succeeds and yields an event whose name is empty
while its payload is live (witnessed by the set destructor-tracking flag),
so the invariant fails without the non-empty-name proviso. -/
theorem c7_name_iff_live_counterexample :
    runEOps Event.emptyEvent false [EOp.constructT natBoxPT "" 7] =
      .ok (pathologicalEvent, true) ∧
    ¬ EventLiveInv pathologicalEvent true := by
  constructor
  · rfl
  · simp [EventLiveInv, pathologicalEvent]

/-- C10: calling destroy on an event that is already empty - no live
payload: empty name and, per the documented name discipline (CoFSM.h lines
211-212), a clear destructor-tracking flag - succeeds, leaves the event
unchanged (hence still empty), and is therefore idempotent; this holds for
the no-argument form and for the typed form `destroy<T>()` for every
payload type `T`. -/
theorem c10_destroy_empty_idempotent (e : Event) (pt : PayloadType)
    (hname : e.name = "") (hflag : e.hasNontrivialDestructor = false) :
    e.destroyVoid = .ok e ∧ e.destroyTyped pt = .ok e ∧ e.isEmpty = true := by
  obtain ⟨nm, cap, dat, fl⟩ := e
  dsimp only at hname hflag
  subst hname
  subst hflag
  refine ⟨rfl, ?_, rfl⟩
  by_cases htriv : pt.triviallyDestructible <;>
    simp [Event.destroyTyped, Event.destroyVoid, Event.assertDestruct, htriv]

/-- Witness for `c10_destroy_empty_idempotent` on the default-constructed
event and a concrete trivially-destructible payload type. -/
theorem c10_destroy_empty_idempotent_witness :
    Event.emptyEvent.destroyVoid = .ok Event.emptyEvent ∧
    Event.emptyEvent.destroyTyped natPT = .ok Event.emptyEvent ∧
    Event.emptyEvent.isEmpty = true :=
  c10_destroy_empty_idempotent Event.emptyEvent natPT rfl rfl



namespace CoFSM

theorem updFsm_fsms_same (w : World) (i : Nat) (f : FSMRec) :
    (w.updFsm i f).fsms i = f := by
  simp [World.updFsm]

theorem updFsm_fsms_other (w : World) (i j : Nat) (f : FSMRec) (h : j ≠ i) :
    (w.updFsm i f).fsms j = w.fsms j := by
  simp [World.updFsm, h]

theorem updFsm_states (w : World) (i : Nat) (f : FSMRec) :
    (w.updFsm i f).states = w.states := rfl

theorem tableFind_none_findP {t : TransitionTable} {k : Option StateHandle × String}
    (h : tableFind t k = none) : t.find? (fun kv => kv.1 == k) = none := by
  unfold tableFind at h
  cases hf : t.find? (fun kv => kv.1 == k) with
  | none => rfl
  | some kv =>
    rw [hf] at h
    cases h

end CoFSM


/-- C9: on a machine where no current state has ever been established -
`_state` is still the null handle, which is exactly the state of a
freshly-constructed FSM - `currentState()` returns the empty string
(`_sharedEmptyString`) instead of failing: the operation is total. -/
theorem c9_currentState_of_null_state (w : World) (f : FSMRec)
    (fsmName : String) (hnull : f.state = none) :
    w.currentStateName f = "" ∧ (FSMRec.init fsmName).state = none := by
  constructor
  · simp [World.currentStateName, hnull]
  · rfl

/-- Witness for `c9_currentState_of_null_state` on a freshly-constructed
machine named `M`. -/
theorem c9_currentState_of_null_state_witness :
    sampleWorld.currentStateName (FSMRec.init "M") = "" ∧
    (FSMRec.init "M").state = none :=
  c9_currentState_of_null_state sampleWorld (FSMRec.init "M") "M" rfl

/-- C8 (amended): of the transition-table operations that accept state
names, the three name-taking `addTransition` overloads and `setState`
raise a fatal error when the referenced name is not registered in the
relevant machine, but `removeTransition`, `hasTransition` and
`targetState` do not: they feed the failed lookup (the null handle)
straight into the table key, and - since `addTransition` only ever inserts
non-null keys, here expressed by the null-key-miss hypothesis - report
no-match (false / false / the shared empty string) without any error.
(Amended from the claim, which asserts a fatal error for all of them, as
forced by `c8_unregistered_name_counterexample`.) -/
theorem c8_unregistered_name (w : World) (i : Nat)
    (nm onEvent toState : String) (toH fromH : StateHandle) (tgt : Option Nat)
    (hfrom : w.findHandle (w.fsms i) nm = none)
    (hto : w.findHandle (w.fsms (tgt.getD i)) nm = none)
    (hkey : tableFind (w.fsms i).table (none, onEvent) = none) :
    w.addTransitionNN i nm onEvent toState tgt =
      .error (.transitionStateNotFound (w.fsms i).name nm) ∧
    w.addTransitionNH i nm onEvent toH tgt =
      .error (.transitionStateNotFound (w.fsms i).name nm) ∧
    w.addTransitionHN i fromH onEvent nm tgt =
      .error (.transitionStateNotFound (w.fsms i).name nm) ∧
    w.setStateByName i nm = .error (.setStateNotFound (w.fsms i).name nm) ∧
    (w.removeTransitionN i nm onEvent).2 = false ∧
    w.hasTransitionN i nm onEvent = false ∧
    w.targetStateN i nm onEvent = "" := by
  have hfindP := tableFind_none_findP hkey
  refine ⟨?_, ?_, ?_, ?_, ?_, ?_, ?_⟩
  · simp [World.addTransitionNN, hfrom]
  · simp [World.addTransitionNH, hfrom]
  · simp [World.addTransitionHN, hto]
  · simp [World.setStateByName, hfrom]
  · simp [World.removeTransitionN, World.removeTransitionH, tableErase, hfrom, hfindP]
  · simp [World.hasTransitionN, World.hasTransitionH, tableContains, hfrom, hfindP]
  · simp [World.targetStateN, World.targetStateH, hfrom, hkey]

/-- Witness for `c8_unregistered_name` on a machine with no registered
states and the name `ghost`. -/
theorem c8_unregistered_name_witness :
    sampleWorld.addTransitionNN 0 "ghost" "ev" "other" none =
      .error (.transitionStateNotFound "M" "ghost") ∧
    sampleWorld.addTransitionNH 0 "ghost" "ev" 3 none =
      .error (.transitionStateNotFound "M" "ghost") ∧
    sampleWorld.addTransitionHN 0 3 "ev" "ghost" none =
      .error (.transitionStateNotFound "M" "ghost") ∧
    sampleWorld.setStateByName 0 "ghost" = .error (.setStateNotFound "M" "ghost") ∧
    (sampleWorld.removeTransitionN 0 "ghost" "ev").2 = false ∧
    sampleWorld.hasTransitionN 0 "ghost" "ev" = false ∧
    sampleWorld.targetStateN 0 "ghost" "ev" = "" :=
  c8_unregistered_name sampleWorld 0 "ghost" "ev" "other" 3 3 none rfl rfl rfl

/-- Counterexample to C8 as stated: on a machine with no registered states,
`removeTransition`, `hasTransition` and `targetState` given the
unregistered from-state name `ghost` complete normally - their model
functions, like the C++ members (CoFSM.h lines 483-487, 503-506, 532-535),
have no failure path at all - and merely report no-match, rather than
raising the fatal error the claim asserts for every name-taking
transition-table operation. -/
theorem c8_unregistered_name_counterexample :
    sampleWorld.hasState (sampleWorld.fsms 0) "ghost" = false ∧
    (sampleWorld.removeTransitionN 0 "ghost" "ev").2 = false ∧
    sampleWorld.hasTransitionN 0 "ghost" "ev" = false ∧
    sampleWorld.targetStateN 0 "ghost" "ev" = "" :=
  ⟨rfl, rfl, rfl, rfl⟩


/-- C2: a routed transition whose destination state belongs to a different
machine, with the destination's in-flight slot empty (empty name and clear
destructor-tracking flag - the state a slot always has between dispatches,
since moving an event out leaves it default-initialized): the routing step
leaves the source machine's `_state` unchanged, sets the destination
machine's `_state` to the target state, and moves the event - name and
payload ownership - into the destination machine's in-flight slot, leaving
the source's slot default-initialized, so the destination's in-flight
event is exactly the event the source held before the hand-over. -/
theorem c2_crossmachine_handover (w : World) (selfId dstId : Nat)
    (fromState toState : StateHandle)
    (hne : (w.fsms selfId).event.isEmpty = false)
    (hfind : tableFind (w.fsms selfId).table
        (some fromState, (w.fsms selfId).event.name) = some ⟨toState, dstId⟩)
    (hcross : dstId ≠ selfId)
    (hslot : (w.fsms dstId).event.isEmpty = true)
    (hflag : (w.fsms dstId).event.hasNontrivialDestructor = false) :
    ∃ w1 : World,
      w.awaitSuspend selfId fromState = .ok (w1, some toState) ∧
      (w1.fsms selfId).state = (w.fsms selfId).state ∧
      (w1.fsms dstId).state = some toState ∧
      (w1.fsms dstId).event = (w.fsms selfId).event ∧
      (w1.fsms selfId).event = Event.emptyEvent := by
  have hmove : Event.moveAssign (w.fsms dstId).event (w.fsms selfId).event =
      .ok ((w.fsms selfId).event, Event.emptyEvent) := by
    simp [Event.moveAssign, Event.clear, Event.assertDestruct, hflag]
  refine ⟨(w.updFsm selfId
      { w.fsms selfId with bIsActive := true, event := Event.emptyEvent }).updFsm dstId
      { w.fsms dstId with state := some toState, event := (w.fsms selfId).event },
    ?_, ?_, ?_, ?_, ?_⟩
  · unfold World.awaitSuspend
    simp only [hne, Bool.false_eq_true, if_false, hfind, hslot, if_true, hmove,
               if_neg hcross]
  · simp [World.updFsm, Ne.symm hcross]
  · simp [World.updFsm]
  · simp [World.updFsm]
  · simp [World.updFsm, Ne.symm hcross]

/-- Witness for `c2_crossmachine_handover`: machine `R` in state `idle`
hands event `Handover` (payload byte 2) over to machine `G`, whose
in-flight slot is empty. -/
theorem c2_crossmachine_handover_witness :
    ∃ w1 : World,
      handoverWorld.awaitSuspend 0 0 = .ok (w1, some 1) ∧
      (w1.fsms 0).state = (handoverWorld.fsms 0).state ∧
      (w1.fsms 1).state = some 1 ∧
      (w1.fsms 1).event = (handoverWorld.fsms 0).event ∧
      (w1.fsms 0).event = Event.emptyEvent :=
  c2_crossmachine_handover handoverWorld 0 1 0 1 (by decide) (by decide)
    (by decide) (by decide) (by decide)

/-- C3: a cross-machine hand-over that finds the destination machine's
in-flight slot not empty is a fatal contract violation: the dispatch is
aborted with the `handoverSlotNotEmpty` error (the C `assert` at line 575
under debug-build semantics) and no recovery is attempted. -/
theorem c3_handover_slot_occupied (w : World) (selfId dstId : Nat)
    (fromState toState : StateHandle)
    (hne : (w.fsms selfId).event.isEmpty = false)
    (hfind : tableFind (w.fsms selfId).table
        (some fromState, (w.fsms selfId).event.name) = some ⟨toState, dstId⟩)
    (hcross : dstId ≠ selfId)
    (hslot : (w.fsms dstId).event.isEmpty = false) :
    w.awaitSuspend selfId fromState =
      .error (.handoverSlotNotEmpty (w.fsms dstId).name) := by
  unfold World.awaitSuspend
  simp only [hne, Bool.false_eq_true, if_false, hfind, hslot, if_neg hcross]

/-- Witness for `c3_handover_slot_occupied`: machine `G`'s slot already
holds event `Busy` when `R` tries to hand `Handover` over to it. -/
theorem c3_handover_slot_occupied_witness :
    handoverBusyWorld.awaitSuspend 0 0 =
      .error (.handoverSlotNotEmpty "G") :=
  c3_handover_slot_occupied handoverBusyWorld 0 1 0 1 (by decide) (by decide)
    (by decide) (by decide)

/-- C5: a non-empty yielded event for which the transition table has no
entry under `(current source state, event name)` aborts the dispatch with
the fatal `noTransition` error, which names the machine, the source state
and the event; no transition is routed (no updated world is produced). -/
theorem c5_no_transition_error (w : World) (selfId : Nat)
    (fromState : StateHandle)
    (hne : (w.fsms selfId).event.isEmpty = false)
    (hmiss : tableFind (w.fsms selfId).table
        (some fromState, (w.fsms selfId).event.name) = none) :
    w.awaitSuspend selfId fromState =
      .error (.noTransition (w.fsms selfId).name (w.states fromState).name
        (w.fsms selfId).event.name) := by
  unfold World.awaitSuspend
  simp only [hne, Bool.false_eq_true, if_false, hmiss]

/-- Witness for `c5_no_transition_error`: machine `G` in state `idleG`
holds event `Busy`, for which its (empty) table has no entry. -/
theorem c5_no_transition_error_witness :
    handoverBusyWorld.awaitSuspend 1 1 =
      .error (.noTransition "G" "idleG" "Busy") :=
  c5_no_transition_error handoverBusyWorld 1 1 (by decide) (by decide)

namespace CoFSM

theorem awaitSuspend_none_cases {w w' : World} {i : Nat} {fs : StateHandle}
    (h : w.awaitSuspend i fs = .ok (w', none)) :
    (w'.fsms i).bIsActive = false ∧ (w'.fsms i).event.isEmpty = true ∧
    (∀ j, (w'.fsms j).state = (w.fsms j).state) ∧ w'.states = w.states := by
  unfold World.awaitSuspend at h
  dsimp only at h
  split at h
  · rename_i hemp
    cases h
    refine ⟨by simp [World.updFsm], ?_, ?_, rfl⟩
    · simpa [World.updFsm] using hemp
    · intro j
      by_cases hj : j = i <;> simp [World.updFsm, hj]
  · exfalso
    split at h
    · cases h
    · split at h
      · simp at h
      · split at h
        · split at h
          · cases h
          · simp at h
        · cases h

theorem awaitSuspend_ok_states {w w' : World} {i : Nat} {fs : StateHandle}
    {nx : Option StateHandle} (h : w.awaitSuspend i fs = .ok (w', nx)) :
    w'.states = w.states := by
  unfold World.awaitSuspend at h
  dsimp only at h
  split at h
  · cases h
    rfl
  · split at h
    · cases h
    · split at h
      · cases h
        rfl
      · split at h
        · split at h
          · cases h
          · cases h
            rfl
        · cases h

end CoFSM

namespace CoFSM

theorem resumeChain_empty_yield (w : World) (s : StateHandle) (fuel : Nat)
    (hst : (w.states s).bIsStarted = true)
    (hne : (w.fsms (w.states s).owner).event.isEmpty = false)
    (hyield : ((w.states s).body (w.fsms (w.states s).owner).event).isEmpty = true) :
    ∃ w3, w.resumeChain s (fuel + 1) =
        .ok (.returned w3 (w.states s).owner) ∧
      (w3.fsms (w.states s).owner).bIsActive = false ∧
      (w3.fsms (w.states s).owner).event =
        (w.states s).body (w.fsms (w.states s).owner).event ∧
      (∀ j, (w3.fsms j).state = (w.fsms j).state) := by
  have hAS : (w.updFsm (w.states s).owner
      { w.fsms (w.states s).owner with
          event := (w.states s).body (w.fsms (w.states s).owner).event }).awaitSuspend
      (w.states s).owner s =
      .ok ((w.updFsm (w.states s).owner
        { w.fsms (w.states s).owner with
            event := (w.states s).body (w.fsms (w.states s).owner).event }).updFsm
        (w.states s).owner
        { w.fsms (w.states s).owner with
            event := (w.states s).body (w.fsms (w.states s).owner).event,
            bIsActive := false }, none) := by
    unfold World.awaitSuspend
    dsimp only
    simp only [updFsm_fsms_same]
    simp [hyield]
  refine ⟨(w.updFsm (w.states s).owner
      { w.fsms (w.states s).owner with
          event := (w.states s).body (w.fsms (w.states s).owner).event }).updFsm
      (w.states s).owner
      { w.fsms (w.states s).owner with
          event := (w.states s).body (w.fsms (w.states s).owner).event,
          bIsActive := false }, ?_, ?_, ?_, ?_⟩
  · unfold World.resumeChain
    dsimp only
    rw [if_pos hst, if_neg (by simp [hne]), hAS]
  · simp [World.updFsm]
  · simp [World.updFsm]
  · intro j
    by_cases hj : j = (w.states s).owner <;> simp [World.updFsm, hj]

theorem resumeChain_returned_inactive :
    ∀ (fuel : Nat) (w : World) (s : StateHandle) (w3 : World) (m : Nat),
      w.resumeChain s fuel = .ok (.returned w3 m) →
      (w3.fsms m).bIsActive = false ∧ (w3.fsms m).event.isEmpty = true := by
  intro fuel
  induction fuel with
  | zero =>
    intro w s w3 m h
    simp [World.resumeChain] at h
  | succ fuel ih =>
    intro w s w3 m h
    unfold World.resumeChain at h
    dsimp only at h
    split at h
    · split at h
      · cases h
      · split at h
        · cases h
        · rename_i hAS
          cases h
          have hc := awaitSuspend_none_cases hAS
          exact ⟨hc.1, hc.2.1⟩
        · exact ih _ _ _ _ h
    · cases h

theorem resumeChain_no_startedOnly :
    ∀ (fuel : Nat) (w : World) (s : StateHandle),
      (∀ t, (w.states t).bIsStarted = true) →
      ∀ w3, w.resumeChain s fuel ≠ .ok (.startedOnly w3) := by
  intro fuel
  induction fuel with
  | zero =>
    intro w s hall w3 h
    simp [World.resumeChain] at h
  | succ fuel ih =>
    intro w s hall w3 h
    unfold World.resumeChain at h
    dsimp only at h
    rw [if_pos (hall s)] at h
    split at h
    · cases h
    · split at h
      · cases h
      · cases h
      · rename_i hAS
        have hstates := awaitSuspend_ok_states hAS
        refine ih _ _ ?_ w3 h
        intro t
        rw [congrFun hstates t]
        exact hall t
end CoFSM


/-- C4 (amended): provided every state the chain resumes has been started,
a dispatch chain terminates exactly when some state yields an empty event.
Part 1: when the resumed state's body yields an empty event, the chain
returns at once (outcome `returned`, the originating send call returning
to its caller), the machine on which the empty event was yielded has
`is_active()` false, its in-flight slot holds the (empty) yielded event,
and no machine's `current_state` is changed by this final step - the
machine stays at the destination of the last non-empty routed transition
until the next `send` or `setState` (routing, `setState` and `sendEvent`
are the only writers of `_state`).  Part 2: whenever a chain returns
normally, the machine on which the empty yield happened is inactive and
its slot holds an empty event.  Part 3: when every state is started, the
`startedOnly` outcome - the second way a chain can hand control back,
exhibited by `c4_termination_counterexample` and the reason the original
claim needs amending - cannot occur. -/
theorem c4_chain_terminates_on_empty_yield :
    (∀ (w : World) (s : StateHandle) (fuel : Nat),
      (w.states s).bIsStarted = true →
      (w.fsms (w.states s).owner).event.isEmpty = false →
      ((w.states s).body (w.fsms (w.states s).owner).event).isEmpty = true →
      ∃ w3, w.resumeChain s (fuel + 1) =
          .ok (.returned w3 (w.states s).owner) ∧
        (w3.fsms (w.states s).owner).bIsActive = false ∧
        (w3.fsms (w.states s).owner).event =
          (w.states s).body (w.fsms (w.states s).owner).event ∧
        (∀ j, (w3.fsms j).state = (w.fsms j).state)) ∧
    (∀ (fuel : Nat) (w : World) (s : StateHandle) (w3 : World) (m : Nat),
      w.resumeChain s fuel = .ok (.returned w3 m) →
      (w3.fsms m).bIsActive = false ∧ (w3.fsms m).event.isEmpty = true) ∧
    (∀ (fuel : Nat) (w : World) (s : StateHandle),
      (∀ t, (w.states t).bIsStarted = true) →
      ∀ w3, w.resumeChain s fuel ≠ .ok (.startedOnly w3)) :=
  ⟨resumeChain_empty_yield, resumeChain_returned_inactive, resumeChain_no_startedOnly⟩

/-- Witness for `c4_chain_terminates_on_empty_yield` (part 1) on
`emptyYieldWorld`: state `A` holds event `go` and yields empty; the chain
returns with machine `M` inactive and every current state unchanged. -/
theorem c4_chain_terminates_on_empty_yield_witness :
    ∃ w3, emptyYieldWorld.resumeChain 0 3 = .ok (.returned w3 0) ∧
      (w3.fsms 0).bIsActive = false ∧
      (w3.fsms 0).event = Event.emptyEvent ∧
      (∀ j, (w3.fsms j).state = (emptyYieldWorld.fsms j).state) :=
  c4_chain_terminates_on_empty_yield.1 emptyYieldWorld 0 2 rfl rfl rfl

/-- Counterexample to C4 as stated: in `unstartedTargetWorld`, sending
event `x` terminates the dispatch chain (the send call returns) although
no state ever yielded an empty event - the chain routed into the
never-started state `B`, which merely started and suspended at its first
await.  The returned world still holds the undelivered non-empty event,
`is_active()` is stuck true, and `B` is now marked started. -/
theorem c4_termination_counterexample :
    chainResultTag (unstartedTargetWorld.sendEvent 0 xEvent 5) = "startedOnly" ∧
    (chainResultWorld (unstartedTargetWorld.sendEvent 0 xEvent 5)).map
        (fun w1 => ((w1.fsms 0).event.isEmpty, (w1.fsms 0).bIsActive,
          (w1.states 1).bIsStarted)) = some (false, true, true) :=
  ⟨rfl, rfl⟩
